import Mathlib

set_option maxRecDepth 100000

/-!
Verification development for the MiaoWallet SUI transfer pipeline
(`sui_transfer.py`, `MiaoWallet/sui_transfer.py`, `MiaoWallet/wallet_panel.py`).

The Python sources are shallowly embedded below.  External cryptographic
primitives (`hashlib.blake2b`, `nacl.signing.SigningKey`) are modelled as a
bundle of functions `CryptoPrims` together with their documented output-length
contracts; everything the repository itself computes (bech32 decoding, bit
regrouping, hex/base64 codecs, the intent-signing byte layout, the dry-run
gate, the confirmation gate, the transfer control flow, the IEEE-754 double
arithmetic used for the amount conversion) is embedded executably.
-/

namespace MiaoWallet

/-- Bundle of the external cryptographic primitives used by the scripts:
`hashlib.blake2b(digest_size=32)`, `nacl.signing.SigningKey(seed).verify_key.encode()`
and `SigningKey(seed).sign(msg).signature`, together with the output-length
contracts these libraries guarantee (32-byte digest, 32-byte public key,
64-byte detached Ed25519 signature). -/
structure CryptoPrims where
  blake2b256 : List Nat → List Nat
  edPublicKey : List Nat → List Nat
  edSign : List Nat → List Nat → List Nat
  blake2b256_len : ∀ m, (blake2b256 m).length = 32
  edPublicKey_len : ∀ s, (edPublicKey s).length = 32
  edSign_len : ∀ s m, (edSign s m).length = 64

/-- Lowercase hex digit for a value < 16 (`hexdigest` uses lowercase). -/
def hexDigit (n : Nat) : Char :=
  if n < 10 then Char.ofNat (48 + n) else Char.ofNat (87 + n)

/-- Lowercase hex string of a byte list, two digits per byte, i.e. Python's
`hasher.hexdigest()` applied to the digest bytes. -/
def hexOfBytes (bs : List Nat) : String :=
  String.mk (bs.foldr (fun b acc => hexDigit (b / 16 % 16) :: hexDigit (b % 16) :: acc) [])

/-- Value of an ASCII hex digit, `none` for a non-hex character. -/
def hexVal (c : Char) : Option Nat :=
  if 48 ≤ c.toNat ∧ c.toNat ≤ 57 then some (c.toNat - 48)
  else if 97 ≤ c.toNat ∧ c.toNat ≤ 102 then some (c.toNat - 87)
  else if 65 ≤ c.toNat ∧ c.toNat ≤ 70 then some (c.toNat - 55)
  else none

/-- ASCII lowercasing of one character (Python `str.lower` on the ASCII
range, the only range the callers feed it). -/
def pyLowerChar (c : Char) : Char :=
  if 'A' ≤ c ∧ c ≤ 'Z' then Char.ofNat (c.toNat + 32) else c

/-- ASCII uppercasing of one character. -/
def pyUpperChar (c : Char) : Char :=
  if 'a' ≤ c ∧ c ≤ 'z' then Char.ofNat (c.toNat - 32) else c

/-- Python whitespace for `str.strip()`. -/
def pySpaceChar (c : Char) : Bool :=
  c = ' ' ∨ c = '\t' ∨ c = '\n' ∨ c = '\x0d' ∨ c = '\x0b' ∨ c = '\x0c'

/-- Python `str.strip()`: drop whitespace at both ends. -/
def pyStrip (cs : List Char) : List Char :=
  ((cs.dropWhile pySpaceChar).reverse.dropWhile pySpaceChar).reverse

/-- Python `s.replace("0x", "")`: delete every (non-overlapping, scanned
left to right) occurrence of `"0x"`. -/
def stripZeroX : List Char → List Char
  | '0' :: 'x' :: rest => stripZeroX rest
  | c :: rest => c :: stripZeroX rest
  | [] => []

/-- Structural base-2 logarithm (floor), driven by a fuel argument so that
it reduces in the kernel. -/
def log2fuel : Nat → Nat → Nat
  | 0, _ => 0
  | fuel + 1, n => if n < 2 then 0 else log2fuel fuel (n / 2) + 1

/-- Floor of the base-2 logarithm. -/
def natLog2 (n : Nat) : Nat := log2fuel n n

/-- Python `bytes.fromhex`: pairs of hex digits, ASCII spaces skipped,
`none` (a raised `ValueError`) on a stray digit or a non-hex character. -/
def bytesFromHex (cs : List Char) : Option (List Nat) :=
  match cs with
  | [] => some []
  | c :: rest =>
    if c = ' ' then bytesFromHex rest
    else
      match rest with
      | [] => none
      | d :: rest2 =>
        match hexVal c, hexVal d with
        | some hi, some lo =>
          match bytesFromHex rest2 with
          | some bs => some ((hi * 16 + lo) :: bs)
          | none => none
        | _, _ => none

-- ── bech32 (the `bech32` pip package, segwit reference implementation) ──

/-- The bech32 data character set. -/
def bech32Charset : List Char := "qpzry9x8gf2tvdw0s3jn54khce6mua7".toList

/-- Index of a character in the bech32 charset (`CHARSET.find(x)`). -/
def bech32CharsetIdx (c : Char) : Option Nat :=
  bech32Charset.findIdx? (· = c)

/-- One step of the bech32 checksum polymod. -/
def bech32PolymodStep (chk v : Nat) : Nat :=
  let top := chk >>> 25
  let chk1 := (((chk &&& 0x1ffffff) <<< 5) ^^^ v)
  let chk2 := if top &&& 1 = 1 then chk1 ^^^ 0x3b6a57b2 else chk1
  let chk3 := if (top >>> 1) &&& 1 = 1 then chk2 ^^^ 0x26508e6d else chk2
  let chk4 := if (top >>> 2) &&& 1 = 1 then chk3 ^^^ 0x1ea119fa else chk3
  let chk5 := if (top >>> 3) &&& 1 = 1 then chk4 ^^^ 0x3d4233dd else chk4
  if (top >>> 4) &&& 1 = 1 then chk5 ^^^ 0x2a1462b3 else chk5

/-- `bech32_polymod` from the bech32 package. -/
def bech32Polymod (values : List Nat) : Nat :=
  values.foldl bech32PolymodStep 1

/-- `bech32_hrp_expand` from the bech32 package. -/
def bech32HrpExpand (hrp : List Char) : List Nat :=
  hrp.map (fun c => c.toNat >>> 5) ++ [0] ++ hrp.map (fun c => c.toNat &&& 31)

/-- `bech32_verify_checksum` from the bech32 package. -/
def bech32VerifyChecksum (hrp : List Char) (data : List Nat) : Bool :=
  bech32Polymod (bech32HrpExpand hrp ++ data) = 1

/-- Index of the last occurrence of `'1'` (`bech.rfind('1')`). -/
def rfindOne (cs : List Char) : Option Nat :=
  match cs.reverse.findIdx? (· = '1') with
  | none => none
  | some i => some (cs.length - 1 - i)

/-- `bech32_decode` from the bech32 package: character-range check, mixed-case
rejection, separator position check, charset check, checksum verification;
returns the human-readable part and the data values minus the checksum. -/
def bech32Decode (bech : String) : Option (List Char × List Nat) :=
  let cs := bech.toList
  if cs.any (fun c => c.toNat < 33 ∨ 126 < c.toNat) then none
  else if cs.map pyLowerChar ≠ cs ∧ cs.map pyUpperChar ≠ cs then none
  else
    let low := cs.map pyLowerChar
    match rfindOne low with
    | none => none
    | some pos =>
      if pos < 1 ∨ low.length < pos + 7 ∨ 90 < low.length then none
      else
        let dataChars := low.drop (pos + 1)
        if dataChars.any (fun c => bech32CharsetIdx c = none) then none
        else
          let hrp := low.take pos
          let data := dataChars.map (fun c => (bech32CharsetIdx c).getD 0)
          if bech32VerifyChecksum hrp data then
            some (hrp, data.take (data.length - 6))
          else none

/-- `convertbits(data, 5, 8, pad=False)` from the bech32 package, at the one
instantiation the repository uses: regroup 5-bit values into 8-bit bytes,
failing on an out-of-range value or on nonzero / too-long padding. -/
def convertbits58 (data : List Nat) : Option (List Nat) :=
  go data 0 0 []
where
  go : List Nat → Nat → Nat → List Nat → Option (List Nat)
  | [], acc, bits, ret =>
    if 5 ≤ bits ∨ (acc <<< (8 - bits)) &&& 255 ≠ 0 then none else some ret.reverse
  | v :: rest, acc, bits, ret =>
    if 32 ≤ v then none
    else
      let acc1 := ((acc <<< 5) ||| v) &&& 8191
      let bits1 := bits + 5
      if 8 ≤ bits1 then go rest acc1 (bits1 - 8) (((acc1 >>> (bits1 - 8)) &&& 255) :: ret)
      else go rest acc1 bits1 ret

-- ── Key decoding and address derivation ─────────────────────────────────

/-- Exception raised while decoding an encoded secret, by raise site:
`bech32_decode` returned `(None, None)` and `convertbits(None, …)` raised
`TypeError`; `convertbits` returned `None` and `bytes(None)` raised
`TypeError`; `data8bit[0]` raised `IndexError` on empty data;
`SigningKey(seed)` raised `ValueError` on a seed shorter than 32 bytes. -/
inductive DecodeFail where
  | badBech32
  | badBits
  | emptyData
  | badSeedLen
  deriving DecidableEq, Repr

/-- `get_address_from_key` in `sui_transfer.py` (lines 41–55): bech32-decode
the encoded secret, regroup to bytes, take byte 0 as the scheme and bytes
1–32 as the seed, derive the Ed25519 public key, and derive the address as
`"0x" + blake2b256(scheme_byte ‖ public_key).hexdigest()`.  Returns
`(seed, scheme, pk, address)` or the exception the Python code raises. -/
def getAddressFromKey (P : CryptoPrims) (privkeyBech32 : String) :
    Except DecodeFail (List Nat × Nat × List Nat × String) :=
  match bech32Decode privkeyBech32 with
  | none => .error .badBech32
  | some (_, data5) =>
    match convertbits58 data5 with
    | none => .error .badBits
    | some data8 =>
      match data8 with
      | [] => .error .emptyData
      | scheme :: rest =>
        let seed := rest.take 32
        if seed.length ≠ 32 then .error .badSeedLen
        else
          let pk := P.edPublicKey seed
          let address := "0x" ++ hexOfBytes (P.blake2b256 (scheme :: pk))
          .ok (seed, scheme, pk, address)

/-- `derive_sui_address` in `MiaoWallet/wallet_panel.py` (lines 198–218):
bech32 path for a `suiprivkey1…` secret, raw-hex path (first 32 bytes as
seed, scheme fixed to 0) otherwise; whole body wrapped in `try/except`
returning a `"(derive failed: …)"` string on any exception. -/
def deriveSuiAddress (P : CryptoPrims) (secret : String) : String :=
  let material : Except DecodeFail (List Nat × Nat) :=
    if List.isPrefixOf "suiprivkey1".toList secret.toList then
      match bech32Decode secret with
      | none => .error .badBech32
      | some (_, data5) =>
        match convertbits58 data5 with
        | none => .error .badBits
        | some data8 =>
          match data8 with
          | [] => .error .emptyData
          | scheme :: rest => .ok ((rest.take 32), scheme)
    else
      let clean := stripZeroX secret.toList
      match bytesFromHex (clean.take 64) with
      | none => .error .badBech32
      | some seed => .ok (seed, 0)
  match material with
  | .error _ => "(derive failed)"
  | .ok (seed, scheme) =>
    if seed.length ≠ 32 then "(derive failed)"
    else
      let pk := P.edPublicKey seed
      "0x" ++ hexOfBytes (P.blake2b256 (scheme :: pk))

-- ── JSON values and the Python dict/list semantics the scripts rely on ──

/-- JSON values as delivered by `requests.post(…).json()`. -/
inductive Json where
  | null
  | bool (b : Bool)
  | num (n : Int)
  | str (s : String)
  | arr (xs : List Json)
  | obj (fields : List (String × Json))

/-- Python exceptions that can escape the embedded fragments, by kind. -/
inductive PyErr where
  | typeError
  | attributeError
  | keyError
  | valueError
  | indexError
  | binasciiError
  | rpcError (msg : String)
  deriving DecidableEq, Repr

/-- Field lookup in an object's field list (first match, like a dict). -/
def jLookup : List (String × Json) → String → Option Json
  | [], _ => none
  | (k, v) :: rest, key => if k = key then some v else jLookup rest key

/-- Python `d.get(key, default)`: works on a dict, raises `AttributeError`
on any other value. -/
def pyGet (j : Json) (key : String) (dflt : Json) : Except PyErr Json :=
  match j with
  | .obj fields => .ok ((jLookup fields key).getD dflt)
  | _ => .error .attributeError

/-- Python `d[key]`: `KeyError` on a missing key, `TypeError` when the
subscripted value is not a dict. -/
def pySub (j : Json) (key : String) : Except PyErr Json :=
  match j with
  | .obj fields =>
    match jLookup fields key with
    | some v => .ok v
    | none => .error .keyError
  | _ => .error .typeError

/-- Python truthiness of a JSON value ("`if x:`"). -/
def jTruthy : Json → Bool
  | .null => false
  | .bool b => b
  | .num n => n ≠ 0
  | .str s => s ≠ ""
  | .arr xs => ¬ xs.isEmpty
  | .obj fields => ¬ fields.isEmpty

/-- Parse the digits of a decimal integer literal. -/
def parseDigits (cs : List Char) : Option Nat :=
  match cs with
  | [] => none
  | _ =>
    if cs.all (fun c => 48 ≤ c.toNat ∧ c.toNat ≤ 57) then
      some (cs.foldl (fun acc c => acc * 10 + (c.toNat - 48)) 0)
    else none

/-- Python `int(s)` on a string: optional surrounding whitespace, optional
sign, decimal digits; `ValueError` otherwise. -/
def pyIntOfString (s : String) : Except PyErr Int :=
  let cs := pyStrip s.toList
  match cs with
  | '-' :: rest =>
    match parseDigits rest with
    | some n => .ok (-(n : Int))
    | none => .error .valueError
  | '+' :: rest =>
    match parseDigits rest with
    | some n => .ok (n : Int)
    | none => .error .valueError
  | _ =>
    match parseDigits cs with
    | some n => .ok (n : Int)
    | none => .error .valueError

/-- Python `int(x)` on a JSON value: identity on integers, `int(True) = 1`,
string parsing for strings, `TypeError` on null/list/dict. -/
def pyIntJ (j : Json) : Except PyErr Int :=
  match j with
  | .num n => .ok n
  | .bool b => .ok (if b then 1 else 0)
  | .str s => pyIntOfString s
  | _ => .error .typeError

/-- Substring membership on character lists, used for Python's `in` on
strings. -/
def containsSub (needle : List Char) : List Char → Bool
  | [] => needle.isEmpty
  | c :: rest => needle.isPrefixOf (c :: rest) || containsSub needle rest

/-- Python `"::" in x`: substring test on a string, membership on a list or
on a dict's keys, `TypeError` on numbers/null/booleans. -/
def pyInColons (j : Json) : Except PyErr Bool :=
  match j with
  | .str s => .ok (containsSub "::".toList s.toList)
  | .arr xs => .ok (xs.any (fun x => match x with | .str t => t = "::" | _ => false))
  | .obj fields => .ok (fields.any (fun kv => kv.1 = "::"))
  | _ => .error .typeError

end MiaoWallet

namespace MiaoWallet

-- ── The dry-run preview check (`print_dry_run`, sui_transfer.py 92–152) ──

/-- One iteration of the balance-change loop in `print_dry_run`
(lines 119–136): `bc.get("owner", {})`, `owner.get("AddressOwner", "?")`,
`int(bc.get("amount", 0))`, `bc.get("coinType", "")`, the `"::" in coin_type`
test, and the `addr[:10] + "..." + addr[-4:]` slice that requires a string
address when the owner is neither the sender nor the recipient. -/
def printDryRunBc (_sender _recipient : String) (bc : Json) : Except PyErr Unit := do
  let owner ← pyGet bc "owner" (.obj [])
  let addr ← pyGet owner "AddressOwner" (.str "?")
  let _ ← pyIntJ (← pyGet bc "amount" (.num 0))
  let coinType ← pyGet bc "coinType" (.str "")
  let _ ← pyInColons coinType
  match addr with
  | .str _ => pure ()
  | _ => .error .typeError

/-- The balance-change section of `print_dry_run`: `result.get("balanceChanges", [])`
followed by a truthiness test and a `for` loop.  A truthy non-list value makes
the loop body raise on its first element. -/
def printDryRunBalances (sender recipient : String) (bcs : Json) : Except PyErr Unit :=
  match bcs with
  | .arr xs => xs.foldlM (fun _ bc => printDryRunBc sender recipient bc) ()
  | other => if jTruthy other then .error .typeError else .ok ()

/-- `print_dry_run` in `sui_transfer.py` (lines 92–152): extract
`effects.status.status` (default `"unknown"`), convert the three gas fields
with `int(…)` (defaults 0) — note this happens before the status test —
then return `False` when the status is anything but the string `"success"`,
and otherwise run the balance-change display loop and return `True`. -/
def printDryRun (result : Json) (sender recipient : String) : Except PyErr Bool := do
  let effects ← pyGet result "effects" (.obj [])
  let statusObj ← pyGet effects "status" (.obj [])
  let status ← pyGet statusObj "status" (.str "unknown")
  let gas ← pyGet effects "gasUsed" (.obj [])
  let _ ← pyIntJ (← pyGet gas "computationCost" (.num 0))
  let _ ← pyIntJ (← pyGet gas "storageCost" (.num 0))
  let _ ← pyIntJ (← pyGet gas "storageRebate" (.num 0))
  match status with
  | .str s =>
    if s = "success" then do
      let bcs ← pyGet result "balanceChanges" (.arr [])
      printDryRunBalances sender recipient bcs
      pure true
    else do
      let _ ← pyGet statusObj "error" (.str "")
      pure false
  | _ => do
    let _ ← pyGet statusObj "error" (.str "")
    pure false

/-- The final-result reporting section of `transfer` (sui_transfer.py
258–277): `result.get("effects", {})`, the chained status lookup, the digest
lookup, the three `int(…)` gas conversions, and the balance-change loop that
subscripts `bc["owner"]` and `bc["amount"]` and slices the address string. -/
def finalReportBc (bc : Json) : Except PyErr Unit := do
  let owner ← pySub bc "owner"
  let addr ← pyGet owner "AddressOwner" (.str "?")
  match addr with
  | .str _ => do
    let _ ← pyIntJ (← pySub bc "amount")
    pure ()
  | _ => .error .typeError

/-- Iterating `for bc in result.get("balanceChanges", [])` (no truthiness
test here): lists iterate their elements; an empty dict or empty string
yields no iterations; a non-empty dict or string yields string elements
whose subscription raises; numbers, booleans and null are not iterable. -/
def finalReportBalances (bcs : Json) : Except PyErr Unit :=
  match bcs with
  | .arr xs => xs.foldlM (fun _ bc => finalReportBc bc) ()
  | .obj [] => .ok ()
  | .str "" => .ok ()
  | _ => .error .typeError

/-- The result-reporting tail of `transfer` after `sign_and_execute`
returns (sui_transfer.py 258–277). -/
def finalReport (result : Json) : Except PyErr Unit := do
  let effects ← pyGet result "effects" (.obj [])
  let statusObj ← pyGet effects "status" (.obj [])
  let _ ← pyGet statusObj "status" (.str "unknown")
  let _ ← pyGet result "digest" (.str "unknown")
  let gas ← pyGet effects "gasUsed" (.obj [])
  let _ ← pyIntJ (← pyGet gas "computationCost" (.num 0))
  let _ ← pyIntJ (← pyGet gas "storageCost" (.num 0))
  let _ ← pyIntJ (← pyGet gas "storageRebate" (.num 0))
  let bcs ← pyGet result "balanceChanges" (.arr [])
  finalReportBalances bcs

-- ── base64 (Python `base64.b64decode` / `base64.b64encode`) ─────────────

/-- Value of a base64 alphabet character, `none` otherwise. -/
def b64AlphaVal (c : Char) : Option Nat :=
  if 'A' ≤ c ∧ c ≤ 'Z' then some (c.toNat - 65)
  else if 'a' ≤ c ∧ c ≤ 'z' then some (c.toNat - 71)
  else if '0' ≤ c ∧ c ≤ '9' then some (c.toNat + 4)
  else if c = '+' then some 62
  else if c = '/' then some 63
  else none

/-- Decode 4-character base64 groups to bytes; `none` models the
`binascii.Error` raised on bad length or bad padding. -/
def b64DecodeGroups : List Char → Option (List Nat)
  | [] => some []
  | a :: b :: c :: d :: rest =>
    (match b64AlphaVal a, b64AlphaVal b with
     | some va, some vb =>
       if c = '=' then
         if d = '=' ∧ rest = [] then some [((va <<< 2) ||| (vb >>> 4)) &&& 255] else none
       else
         match b64AlphaVal c with
         | some vc =>
           if d = '=' then
             if rest = [] then
               some [((va <<< 2) ||| (vb >>> 4)) &&& 255, (((vb &&& 15) <<< 4) ||| (vc >>> 2)) &&& 255]
             else none
           else
             match b64AlphaVal d, b64DecodeGroups rest with
             | some vd, some bs =>
               some ((((va <<< 2) ||| (vb >>> 4)) &&& 255) ::
                     ((((vb &&& 15) <<< 4) ||| (vc >>> 2)) &&& 255) ::
                     ((((vc &&& 3) <<< 6) ||| vd) &&& 255) :: bs)
             | _, _ => none
         | none => none
     | _, _ => none)
  | _ => none

/-- Python `base64.b64decode(s)` (default `validate=False`): characters
outside the alphabet and `'='` are discarded, then the remainder must be
well-padded groups of four. -/
def b64decode (s : String) : Option (List Nat) :=
  b64DecodeGroups (s.toList.filter (fun c => (b64AlphaVal c).isSome ∨ c = '='))

/-- The base64 alphabet. -/
def b64Chars : List Char :=
  "ABCDEFGHIJKLMNOPQRSTUVWXYZabcdefghijklmnopqrstuvwxyz0123456789+/".toList

/-- Character for a 6-bit value. -/
def b64Char (n : Nat) : Char := b64Chars.getD n 'A'

/-- Encode bytes as base64 characters with padding. -/
def b64EncodeList : List Nat → List Char
  | [] => []
  | [x] => [b64Char (x >>> 2), b64Char ((x &&& 3) <<< 4), '=', '=']
  | [x, y] => [b64Char (x >>> 2), b64Char (((x &&& 3) <<< 4) ||| (y >>> 4)),
               b64Char ((y &&& 15) <<< 2), '=']
  | x :: y :: z :: rest =>
    b64Char (x >>> 2) :: b64Char (((x &&& 3) <<< 4) ||| (y >>> 4)) ::
    b64Char (((y &&& 15) <<< 2) ||| (z >>> 6)) :: b64Char (z &&& 63) :: b64EncodeList rest

/-- Python `base64.b64encode(bs).decode()`. -/
def b64encode (bs : List Nat) : String := String.mk (b64EncodeList bs)

-- ── Intent signing (`sign_and_execute`, sui_transfer.py 157–181) ────────

/-- The intent message: the fixed 3-byte prefix `bytes([0, 0, 0])`
concatenated with the transaction bytes (sui_transfer.py 161–162). -/
def intentMessage (txBytes : List Nat) : List Nat := 0 :: 0 :: 0 :: txBytes

/-- The raw signature envelope assembled by `sign_and_execute`
(sui_transfer.py 164–172): blake2b-256 digest of the intent message,
64-byte Ed25519 signature of the digest, then
`bytes([scheme]) + signature + pk`. -/
def sigEnvelopeBytes (P : CryptoPrims) (seed : List Nat) (scheme : Nat)
    (txBytes : List Nat) : List Nat :=
  scheme :: (P.edSign seed (P.blake2b256 (intentMessage txBytes)) ++ P.edPublicKey seed)

-- ── The external-call environment of `transfer` ─────────────────────────

/-- The outside world as `transfer` sees it: the keychain lookup, SuiNS
resolution (already wrapped in the source's catch-all, hence an `Option`),
the local address-cache write (`save_wallet_address`, which can raise on a
corrupt cache file), the four JSON-RPC calls, and the interactive
confirmation answer.  `Except PyErr` failures model both transport
exceptions and `"error"` responses raised by `rpc_call`. -/
structure TransferEnv where
  keyringGet : String → Option String
  resolveSuins : String → Option String
  saveAddrErr : Option PyErr
  getCoins : String → Except PyErr Json
  buildTx : String → String → Nat → Json → Nat → Except PyErr Json
  dryRunRpc : Json → Except PyErr Json
  executeRpc : Json → String → Except PyErr Json
  userAnswer : String

/-- `sign_and_execute` (sui_transfer.py 157–181): base64-decode the
transaction bytes, hash the intent message, sign the digest, assemble and
base64-encode the envelope, then broadcast.  The boolean records whether
the broadcast RPC (`sui_executeTransactionBlock`) was actually reached. -/
def signAndExecute (P : CryptoPrims) (env : TransferEnv) (txBytesJ : Json)
    (seed : List Nat) (scheme : Nat) : Bool × Except PyErr Json :=
  match txBytesJ with
  | .str s =>
    match b64decode s with
    | none => (false, .error .binasciiError)
    | some txBytes =>
      let sigB64 := b64encode (sigEnvelopeBytes P seed scheme txBytes)
      (true, env.executeRpc txBytesJ sigB64)
  | _ => (false, .error .typeError)

-- ── IEEE-754 binary64 model for the amount conversion ───────────────────

/-- A nonnegative IEEE-754 binary64 value written as `m / 2 ^ p`.  Every
value the amount-conversion path manipulates (parsed decimal amounts,
`1_000_000_000`, their product) has this form. -/
structure PFloat where
  m : Nat
  p : Nat
  deriving DecidableEq, Repr

/-- Round `num / den` to the nearest integer, ties to even. -/
def roundHalfEven (num den : Nat) : Nat :=
  let q := num / den
  let r := num % den
  if den < 2 * r then q + 1
  else if 2 * r < den then q
  else if q % 2 = 0 then q else q + 1

/-- Round the exact value `M / 2 ^ P` to binary64 precision (53-bit
significand, round to nearest, ties to even; exponent range is not a
constraint at the magnitudes the scripts handle). -/
def roundPF (M P : Nat) : PFloat :=
  if M < 2 ^ 53 then ⟨M, P⟩
  else
    let t := natLog2 M
    let k := t - 52
    let m := roundHalfEven M (2 ^ k)
    if k ≤ P then ⟨m, P - k⟩ else ⟨m * 2 ^ (k - P), 0⟩

/-- IEEE-754 binary64 multiplication: exact product, then one rounding. -/
def pfMul (x y : PFloat) : PFloat := roundPF (x.m * y.m) (x.p + y.p)

/-- Python `float(s)` on a nonnegative decimal literal of value
`a / b`: the correctly rounded binary64 value (what `strtod` produces). -/
def pyFloatOfDec (a b : Nat) : PFloat :=
  if a = 0 then ⟨0, 0⟩
  else
    let s := 53 + natLog2 b
    let n := (a <<< s) / b
    let t := natLog2 n
    let k := t - 52
    let m := roundHalfEven (a <<< s) (b <<< k)
    if k ≤ s then ⟨m, s - k⟩ else ⟨m <<< (k - s), 0⟩

/-- Python `int(x)` on a nonnegative float: truncation. -/
def pyIntPF (x : PFloat) : Nat := x.m >>> x.p

/-- `amount_mist = int(amount_sui * 1_000_000_000)` (sui_transfer.py 188
and 332): binary64 multiplication by the exactly representable `10 ^ 9`,
then truncation. -/
def amountMist (amountSui : PFloat) : Nat := pyIntPF (pfMul amountSui ⟨1000000000, 0⟩)

-- ── The transfer pipeline (`transfer`, sui_transfer.py 186–285) ─────────

/-- Instrumentation of one `transfer` run: whether `get_address_from_key`
produced the secret material, whether the `finally` block that rebinds
`privkey`/`seed` to `None` ran, whether the dry-run RPC was issued, whether
the interactive prompt was shown, whether `sign_and_execute` was entered,
whether the broadcast RPC was reached, and the dry-run response together
with the outcome of `print_dry_run` on it. -/
structure RunFlags where
  secretProduced : Bool := false
  secretCleared : Bool := false
  dryRunCalled : Bool := false
  promptCalled : Bool := false
  signerInvoked : Bool := false
  executorCalled : Bool := false
  simReport : Option (Json × Except PyErr Bool) := none

/-- Caller-visible outcome of `transfer`: `return None`, `return result`,
or an uncaught exception. -/
inductive TOut where
  | retNone
  | retResult (j : Json)
  | raised (e : PyErr)

/-- A `transfer` run: its outcome plus the instrumentation flags. -/
structure TransferRun where
  out : TOut
  flags : RunFlags

/-- The Python exception corresponding to each `DecodeFail` raise site. -/
def decodeFailToPyErr : DecodeFail → PyErr
  | .badBech32 => .typeError
  | .badBits => .typeError
  | .emptyData => .indexError
  | .badSeedLen => .valueError

/-- The signing tail of `transfer` (sui_transfer.py 254–279): invoke
`sign_and_execute`, then run the result-reporting section and
`return result`. -/
def transferSign (P : CryptoPrims) (env : TransferEnv) (txBytesJ : Json)
    (seed : List Nat) (scheme : Nat) (fl : RunFlags) : TransferRun :=
  let fl1 := { fl with signerInvoked := true }
  let se := signAndExecute P env txBytesJ seed scheme
  let fl2 := { fl1 with executorCalled := se.1 }
  match se.2 with
  | .error e => ⟨.raised e, fl2⟩
  | .ok result =>
    match finalReport result with
    | .error e => ⟨.raised e, fl2⟩
    | .ok _ => ⟨.retResult result, fl2⟩

/-- The body of the `try` block of `transfer` (sui_transfer.py 215–279):
decode the key, cache the address, fetch coins, take the first coin, build
the transaction, dry-run it, gate on the preview and on confirmation, then
sign and execute. -/
def transferTry (P : CryptoPrims) (env : TransferEnv) (recipient : String)
    (amountMistArg : Nat) (autoConfirm : Bool) (privkey : String) : TransferRun :=
  match getAddressFromKey P privkey with
  | .error e => ⟨.raised (decodeFailToPyErr e), {}⟩
  | .ok (seed, scheme, _pk, sender) =>
    let fl : RunFlags := { secretProduced := true }
    match env.saveAddrErr with
    | some e => ⟨.raised e, fl⟩
    | none =>
      match env.getCoins sender with
      | .error e => ⟨.raised e, fl⟩
      | .ok coins =>
        match pySub coins "data" with
        | .error e => ⟨.raised e, fl⟩
        | .ok dataJ =>
          if jTruthy dataJ = false then ⟨.retNone, fl⟩
          else
            match dataJ with
            | .obj _ => ⟨.raised .keyError, fl⟩
            | .arr (coin :: _) =>
              (match pySub coin "coinObjectId" with
               | .error e => ⟨.raised e, fl⟩
               | .ok coinId =>
                 match pyGet coin "balance" (.num 0) >>= pyIntJ with
                 | .error e => ⟨.raised e, fl⟩
                 | .ok _balance =>
                   match env.buildTx sender recipient amountMistArg coinId 5000000 with
                   | .error e => ⟨.raised e, fl⟩
                   | .ok txResult =>
                     match pySub txResult "txBytes" with
                     | .error e => ⟨.raised e, fl⟩
                     | .ok txBytesJ =>
                       let fl1 := { fl with dryRunCalled := true }
                       match env.dryRunRpc txBytesJ with
                       | .error e => ⟨.raised e, fl1⟩
                       | .ok dryResult =>
                         let pd := printDryRun dryResult sender recipient
                         let fl2 := { fl1 with simReport := some (dryResult, pd) }
                         match pd with
                         | .error e => ⟨.raised e, fl2⟩
                         | .ok ok =>
                           if ok = false then ⟨.retNone, fl2⟩
                           else
                             if autoConfirm = false then
                               let fl3 := { fl2 with promptCalled := true }
                               let ans := (pyStrip env.userAnswer.toList).map pyLowerChar
                               if ans = "y".toList ∨ ans = "yes".toList then
                                 transferSign P env txBytesJ seed scheme fl3
                               else ⟨.retNone, fl3⟩
                             else
                               transferSign P env txBytesJ seed scheme fl2)
            | _ => ⟨.raised .typeError, fl⟩

/-- `transfer` in `sui_transfer.py` (lines 186–285): convert the amount,
resolve a `.sui` recipient, fetch the key from the keychain, and run the
`try` body; the `finally` block (lines 281–285) rebinds `privkey` and
`seed` to `None` on every exit of the `try`, which the model records as
`secretCleared`. -/
def transfer (P : CryptoPrims) (env : TransferEnv) (walletAlias recipient0 : String)
    (amountSui : PFloat) (autoConfirm : Bool) : TransferRun :=
  let amountMistArg := amountMist amountSui
  let resolved : Option String :=
    if List.isSuffixOf ".sui".toList recipient0.toList then
      match env.resolveSuins recipient0 with
      | none => none
      | some r => if r = "" then none else some r
    else some recipient0
  match resolved with
  | none => ⟨.retNone, {}⟩
  | some recipient =>
    match env.keyringGet walletAlias with
    | none => ⟨.retNone, {}⟩
    | some privkey =>
      if privkey = "" then ⟨.retNone, {}⟩
      else
        let r := transferTry P env recipient amountMistArg autoConfirm privkey
        ⟨r.out, { r.flags with secretCleared := true }⟩

-- ── Concrete fixtures used to evaluate the model ────────────────────────

/-- A trivial instantiation of the external-primitive bundle that satisfies
the length contracts, used to run the embedded code on concrete inputs. -/
def constPrims : CryptoPrims where
  blake2b256 := fun _ => List.replicate 32 0
  edPublicKey := fun _ => List.replicate 32 0
  edSign := fun _ _ => List.replicate 64 0
  blake2b256_len := fun _ => by simp
  edPublicKey_len := fun _ => by simp
  edSign_len := fun _ _ => by simp

/-- A fixed 32-byte seed used by the concrete tests. -/
def testSeed : List Nat := (List.range 32).map (fun i => i + 1)

/-- A valid bech32 encoding of scheme byte 0 followed by `testSeed`
(`suiprivkey` human-readable part, correct checksum). -/
def testKey : String := "suiprivkey1qqqsyqcyq5rqwzqfpg9scrgwpugpzysnzs23v9ccrydpk8qarc0jqa4ffsr"

/-- The raw-hex encoding of `testSeed`. -/
def testKeyHex : String := "0x0102030405060708090a0b0c0d0e0f101112131415161718191a1b1c1d1e1f20"

/-- A dry-run response whose `effects.status.status` is `"success"`. -/
def simSuccessJson : Json :=
  .obj [("effects", .obj [("status", .obj [("status", .str "success")])])]

/-- A dry-run response reporting a simulation failure
(`effects.status.status = "failure"`, error `"insufficient gas"`). -/
def simFailureJson : Json :=
  .obj [("effects", .obj [("status", .obj [("status", .str "failure"),
                                           ("error", .str "insufficient gas")])])]

/-- A malformed dry-run response: `effects.status` is a string where the
code expects an object. -/
def simMalformedJson : Json :=
  .obj [("effects", .obj [("status", .str "failed")])]

/-- A coins response with one spendable coin. -/
def coinsJson : Json :=
  .obj [("data", .arr [.obj [("coinObjectId", .str "0xc0ffee"),
                             ("balance", .str "5000000000")]])]

/-- A coins response with no spendable coin. -/
def coinsEmptyJson : Json := .obj [("data", .arr [])]

/-- A transaction-builder response. -/
def txJson : Json := .obj [("txBytes", .str "AAAA")]

/-- A broadcast response with on-chain status `"success"`. -/
def execOkJson : Json :=
  .obj [("digest", .str "0xd1"),
        ("effects", .obj [("status", .obj [("status", .str "success")])])]

/-- A broadcast response with on-chain status `"failure"`. -/
def execFailJson : Json :=
  .obj [("digest", .str "0xd1"),
        ("effects", .obj [("status", .obj [("status", .str "failure")])])]

/-- An environment in which every external call succeeds. -/
def baseEnv : TransferEnv where
  keyringGet := fun _ => some testKey
  resolveSuins := fun _ => none
  saveAddrErr := none
  getCoins := fun _ => .ok coinsJson
  buildTx := fun _ _ _ _ _ => .ok txJson
  dryRunRpc := fun _ => .ok simSuccessJson
  executeRpc := fun _ _ => .ok execOkJson
  userAnswer := "y"

/-- `baseEnv`, but the dry run reports a simulation failure. -/
def envSimFail : TransferEnv := { baseEnv with dryRunRpc := fun _ => .ok simFailureJson }

/-- `baseEnv`, but the dry-run response is structurally malformed. -/
def envSimMalformed : TransferEnv :=
  { baseEnv with dryRunRpc := fun _ => .ok simMalformedJson }

/-- `baseEnv`, but the keychain returns nothing. -/
def envKeyMissing : TransferEnv := { baseEnv with keyringGet := fun _ => none }

/-- `baseEnv`, but the coins response is empty. -/
def envNoCoins : TransferEnv := { baseEnv with getCoins := fun _ => .ok coinsEmptyJson }

/-- `baseEnv`, but the user declines the confirmation prompt. -/
def envCancel : TransferEnv := { baseEnv with userAnswer := "n" }

/-- `baseEnv`, but the chain reports a failed execution status. -/
def envExecFail : TransferEnv := { baseEnv with executeRpc := fun _ _ => .ok execFailJson }

/-- The amount 0.01 as the binary64 value Python parses. -/
def pf001 : PFloat := pyFloatOfDec 1 100

-- ── Lemmas about the dry-run preview check ──────────────────────────────

/-- The `effects.status.status` field of a dry-run response, extracted with
the defaults `print_dry_run` uses (`{}` for missing objects, `"unknown"` for
a missing status); `none` when a non-object sits where the code chains
`.get` calls (the situations in which `print_dry_run` raises before
reaching the status test). -/
def dryStatus (j : Json) : Option Json :=
  match j with
  | .obj fields =>
    match (jLookup fields "effects").getD (.obj []) with
    | .obj efields =>
      match (jLookup efields "status").getD (.obj []) with
      | .obj sfields => some ((jLookup sfields "status").getD (.str "unknown"))
      | _ => none
    | _ => none
  | _ => none

/-- When `print_dry_run` returns (instead of raising), its boolean is the
test "the extracted `effects.status.status` is the string `success`". -/
theorem printDryRun_ok (j : Json) (s r : String) (b : Bool)
    (h : printDryRun j s r = .ok b) :
    ∃ v, dryStatus j = some v ∧ (b = true ↔ v = .str "success") := by
  cases j with
  | obj fields =>
    unfold printDryRun at h
    simp only [pyGet, bind, Except.bind, pure, Except.pure] at h
    rcases hEf : (jLookup fields "effects").getD (Json.obj []) with _ | _ | _ | _ | _ | efields <;>
      simp only [hEf] at h <;> try exact Except.noConfusion h
    rcases hSt : (jLookup efields "status").getD (Json.obj []) with _ | _ | _ | _ | _ | sfields <;>
      simp only [hSt] at h <;> try exact Except.noConfusion h
    rcases hGas : (jLookup efields "gasUsed").getD (Json.obj []) with _ | _ | _ | _ | _ | gfields <;>
      simp only [hGas] at h <;> try exact Except.noConfusion h
    rcases hI1 : pyIntJ ((jLookup gfields "computationCost").getD (Json.num 0)) with e | c1 <;>
      simp only [hI1] at h <;> try exact Except.noConfusion h
    rcases hI2 : pyIntJ ((jLookup gfields "storageCost").getD (Json.num 0)) with e | c2 <;>
      simp only [hI2] at h <;> try exact Except.noConfusion h
    rcases hI3 : pyIntJ ((jLookup gfields "storageRebate").getD (Json.num 0)) with e | c3 <;>
      simp only [hI3] at h <;> try exact Except.noConfusion h
    rcases hV : (jLookup sfields "status").getD (Json.str "unknown") with _ | vb | vn | sv | va | vo
    case str =>
      simp only [hV] at h
      by_cases hsv : sv = "success"
      · subst hsv
        simp only [if_pos rfl] at h
        rcases hB : printDryRunBalances s r ((jLookup fields "balanceChanges").getD (Json.arr [])) with
            e | u <;> simp only [hB] at h <;> try exact Except.noConfusion h
        have hb : b = true := by
          have := h
          injection this with hh
          exact hh.symm
        exact ⟨Json.str "success", by simp [dryStatus, hEf, hSt, hV], by simp [hb]⟩
      · simp only [if_neg hsv] at h
        have hb : b = false := by
          injection h with hh
          exact hh.symm
        exact ⟨Json.str sv, by simp [dryStatus, hEf, hSt, hV],
               by simp [hb, Json.str.injEq, hsv]⟩
    all_goals
      simp only [hV] at h
    all_goals
      have hb : b = false := by injection h with hh; exact hh.symm
    case null =>
      exact ⟨Json.null, by simp [dryStatus, hEf, hSt, hV], by simp [hb]⟩
    case bool =>
      exact ⟨Json.bool vb, by simp [dryStatus, hEf, hSt, hV], by simp [hb]⟩
    case num =>
      exact ⟨Json.num vn, by simp [dryStatus, hEf, hSt, hV], by simp [hb]⟩
    case arr =>
      exact ⟨Json.arr va, by simp [dryStatus, hEf, hSt, hV], by simp [hb]⟩
    case obj =>
      exact ⟨Json.obj vo, by simp [dryStatus, hEf, hSt, hV], by simp [hb]⟩
  | null => simp [printDryRun, pyGet, bind, Except.bind] at h
  | bool b2 => simp [printDryRun, pyGet, bind, Except.bind] at h
  | num n => simp [printDryRun, pyGet, bind, Except.bind] at h
  | str s2 => simp [printDryRun, pyGet, bind, Except.bind] at h
  | arr xs => simp [printDryRun, pyGet, bind, Except.bind] at h

/-- When the chained `effects.status.status` lookup meets a non-object,
`print_dry_run` raises (it does not return `False`). -/
theorem printDryRun_raises (j : Json) (s r : String)
    (h : dryStatus j = none) : ∃ e, printDryRun j s r = .error e := by
  cases j with
  | obj fields =>
    unfold dryStatus at h
    unfold printDryRun
    simp only [pyGet, bind, Except.bind, pure, Except.pure]
    rcases hEf : (jLookup fields "effects").getD (Json.obj []) with _ | _ | _ | _ | _ | efields <;>
      simp only [hEf] at h ⊢ <;> try exact ⟨_, rfl⟩
    rcases hSt : (jLookup efields "status").getD (Json.obj []) with _ | _ | _ | _ | _ | sfields <;>
      simp only [hSt] at h ⊢ <;> try exact ⟨_, rfl⟩
    exact Option.noConfusion h
  | null => exact ⟨_, rfl⟩
  | bool b2 => exact ⟨_, rfl⟩
  | num n => exact ⟨_, rfl⟩
  | str s2 => exact ⟨_, rfl⟩
  | arr xs => exact ⟨_, rfl⟩

-- ── Gate lemmas for the transfer control flow ───────────────────────────

/-- Behaviour of the signing tail: it always marks the signer as invoked,
leaves the earlier flags alone, and only ever returns a result value that
the broadcast RPC produced. -/
theorem transferSign_gate (P : CryptoPrims) (env : TransferEnv) (txBytesJ : Json)
    (seed : List Nat) (scheme : Nat) (fl : RunFlags) (run : TransferRun)
    (hrun : run = transferSign P env txBytesJ seed scheme fl) :
    run.flags.signerInvoked = true ∧
    run.flags.simReport = fl.simReport ∧
    run.flags.promptCalled = fl.promptCalled ∧
    run.flags.dryRunCalled = fl.dryRunCalled ∧
    run.flags.secretProduced = fl.secretProduced ∧
    (∀ x, run.out = TOut.retResult x → ∃ t sg, env.executeRpc t sg = Except.ok x) := by
  subst hrun
  unfold transferSign signAndExecute
  cases txBytesJ with
  | str s =>
    rcases hB : b64decode s with _ | tx
    · simp [hB]
    · simp only [hB]
      rcases hE : env.executeRpc (Json.str s)
          (b64encode (sigEnvelopeBytes P seed scheme tx)) with e | result
      · simp [hE]
      · simp only [hE]
        rcases hF : finalReport result with e | u
        · simp [hF]
        · simp only [hF]
          refine ⟨trivial, trivial, trivial, trivial, trivial, ?_⟩
          intro x hx
          simp only [TOut.retResult.injEq] at hx
          exact ⟨_, _, hx ▸ hE⟩
  | null => simp
  | bool b2 => simp
  | num n => simp
  | arr xs => simp
  | obj fs => simp

/-- Behaviour of the `try` body of `transfer`: the signer runs only after a
dry run whose preview check returned `True`; a `False` preview cancels the
operation before signing; a raised preview propagates before signing; the
auto-confirm path never consults the prompt; and a returned result always
comes from the broadcast RPC. -/
theorem transferTry_gate (P : CryptoPrims) (env : TransferEnv) (recipient : String)
    (amt : Nat) (auto : Bool) (privkey : String) (run : TransferRun)
    (hrun : run = transferTry P env recipient amt auto privkey) :
    (run.flags.signerInvoked = true →
       ∃ j, run.flags.simReport = some (j, Except.ok true)) ∧
    (∀ j e, run.flags.simReport = some (j, e) →
       run.flags.dryRunCalled = true ∧ ∃ s r, e = printDryRun j s r) ∧
    (∀ j, run.flags.simReport = some (j, Except.ok false) →
       run.out = TOut.retNone ∧ run.flags.signerInvoked = false ∧
       run.flags.executorCalled = false) ∧
    (∀ j e, run.flags.simReport = some (j, Except.error e) →
       run.out = TOut.raised e ∧ run.flags.signerInvoked = false ∧
       run.flags.executorCalled = false) ∧
    (auto = true → run.flags.promptCalled = false) ∧
    (run.flags.executorCalled = true → run.flags.signerInvoked = true) ∧
    (run.flags.signerInvoked = true → run.flags.dryRunCalled = true) ∧
    (∀ x, run.out = TOut.retResult x →
       run.flags.signerInvoked = true ∧ ∃ t sg, env.executeRpc t sg = Except.ok x) := by
  subst hrun
  unfold transferTry
  rcases hK : getAddressFromKey P privkey with e | ⟨seed, scheme, pk, sender⟩ <;>
    simp only [hK]
  · simp
  rcases hS : env.saveAddrErr with _ | e <;> simp only [hS]
  case some => simp
  rcases hC : env.getCoins sender with e | coins <;> simp only [hC]
  · simp
  rcases hD : pySub coins "data" with e | dataJ <;> simp only [hD]
  · simp
  by_cases hT : jTruthy dataJ = false
  · rw [if_pos hT]
    simp
  rw [if_neg hT]
  cases dataJ with
  | null => simp
  | bool b2 => simp
  | num n => simp
  | str s2 => simp
  | obj fs => simp
  | arr xs =>
    cases xs with
    | nil => simp
    | cons coin rest =>
      rcases hCI : pySub coin "coinObjectId" with e | coinId <;> simp only [hCI]
      · simp
      rcases hBal : pyGet coin "balance" (Json.num 0) >>= pyIntJ with e | bal <;>
        simp only [hBal]
      · simp
      rcases hBT : env.buildTx sender recipient amt coinId 5000000 with e | txResult <;>
        simp only [hBT]
      · simp
      rcases hTB : pySub txResult "txBytes" with e | txBytesJ <;> simp only [hTB]
      · simp
      rcases hDR : env.dryRunRpc txBytesJ with e | dryResult <;> simp only [hDR]
      · simp
      rcases hP : printDryRun dryResult sender recipient with e | okb <;> simp only [hP]
      · -- preview raised: the run is the raised leaf carrying the report
        refine ⟨by simp, ?_, by simp, ?_, by simp, by simp, by simp, by simp⟩
        · intro j e' h
          simp only [Option.some.injEq, Prod.mk.injEq] at h
          exact ⟨trivial, sender, recipient, by rw [← h.2, ← h.1, hP]⟩
        · intro j e' h
          simp only [Option.some.injEq, Prod.mk.injEq, Except.error.injEq] at h
          simp [← h.2]
      cases okb with
      | false =>
        -- preview returned False: the run cancels before signing
        simp only [reduceIte]
        refine ⟨by simp, ?_, ?_, by simp, by simp, by simp, by simp, by simp⟩
        · intro j e' h
          simp only [Option.some.injEq, Prod.mk.injEq] at h
          exact ⟨trivial, sender, recipient, by rw [← h.2, ← h.1, hP]⟩
        · intro j h
          simp
      | true =>
        simp only [Bool.true_eq_false, reduceIte]
        cases auto with
        | true =>
          simp only [Bool.true_eq_false, reduceIte]
          obtain ⟨g1, g2, g3, g4, g5, g6⟩ :=
            transferSign_gate P env txBytesJ seed scheme
              { secretProduced := true, dryRunCalled := true,
                simReport := some (dryResult, Except.ok true) } _ rfl
          refine ⟨?_, ?_, ?_, ?_, ?_, ?_, ?_, ?_⟩
          · intro _
            exact ⟨dryResult, by rw [g2]⟩
          · intro j e' h
            rw [g2] at h
            simp only [Option.some.injEq, Prod.mk.injEq] at h
            exact ⟨by rw [g4], sender, recipient, by rw [← h.2, ← h.1, hP]⟩
          · intro j h
            rw [g2] at h
            simp only [Option.some.injEq, Prod.mk.injEq] at h
            exact absurd h.2 (by simp)
          · intro j e' h
            rw [g2] at h
            simp only [Option.some.injEq, Prod.mk.injEq] at h
            exact absurd h.2 (by simp)
          · intro _
            rw [g3]
          · intro _
            exact g1
          · intro _
            rw [g4]
          · intro x hx
            exact ⟨g1, g6 x hx⟩
        | false =>
          simp only [reduceIte]
          by_cases hA : (pyStrip env.userAnswer.toList).map pyLowerChar = "y".toList ∨
              (pyStrip env.userAnswer.toList).map pyLowerChar = "yes".toList
          · rw [if_pos hA]
            obtain ⟨g1, g2, g3, g4, g5, g6⟩ :=
              transferSign_gate P env txBytesJ seed scheme
                { secretProduced := true, dryRunCalled := true, promptCalled := true,
                  simReport := some (dryResult, Except.ok true) } _ rfl
            refine ⟨?_, ?_, ?_, ?_, ?_, ?_, ?_, ?_⟩
            · intro _
              exact ⟨dryResult, by rw [g2]⟩
            · intro j e' h
              rw [g2] at h
              simp only [Option.some.injEq, Prod.mk.injEq] at h
              exact ⟨by rw [g4], sender, recipient, by rw [← h.2, ← h.1, hP]⟩
            · intro j h
              rw [g2] at h
              simp only [Option.some.injEq, Prod.mk.injEq] at h
              exact absurd h.2 (by simp)
            · intro j e' h
              rw [g2] at h
              simp only [Option.some.injEq, Prod.mk.injEq] at h
              exact absurd h.2 (by simp)
            · intro hfalse
              exact absurd hfalse (by simp)
            · intro _
              exact g1
            · intro _
              rw [g4]
            · intro x hx
              exact ⟨g1, g6 x hx⟩
          · rw [if_neg hA]
            refine ⟨by simp, ?_, ?_, by simp, by simp, by simp, by simp, by simp⟩
            · intro j e' h
              simp only [Option.some.injEq, Prod.mk.injEq] at h
              exact ⟨rfl, sender, recipient, by rw [← h.2, ← h.1, hP]⟩
            · intro j h
              simp only [Option.some.injEq, Prod.mk.injEq] at h
              exact absurd h.2 (by simp)

/-- Behaviour of the whole `transfer` operation, lifting `transferTry_gate`
through the `.sui` resolution, the keychain lookup and the `finally` block:
additionally, whenever the secret material was produced, the cleanup ran. -/
theorem transfer_gate (P : CryptoPrims) (env : TransferEnv) (walletAlias recipient0 : String)
    (amountSui : PFloat) (auto : Bool) (run : TransferRun)
    (hrun : run = transfer P env walletAlias recipient0 amountSui auto) :
    (run.flags.signerInvoked = true →
       ∃ j, run.flags.simReport = some (j, Except.ok true)) ∧
    (∀ j e, run.flags.simReport = some (j, e) →
       run.flags.dryRunCalled = true ∧ ∃ s r, e = printDryRun j s r) ∧
    (∀ j, run.flags.simReport = some (j, Except.ok false) →
       run.out = TOut.retNone ∧ run.flags.signerInvoked = false ∧
       run.flags.executorCalled = false) ∧
    (∀ j e, run.flags.simReport = some (j, Except.error e) →
       run.out = TOut.raised e ∧ run.flags.signerInvoked = false ∧
       run.flags.executorCalled = false) ∧
    (auto = true → run.flags.promptCalled = false) ∧
    (run.flags.executorCalled = true → run.flags.signerInvoked = true) ∧
    (run.flags.signerInvoked = true → run.flags.dryRunCalled = true) ∧
    (∀ x, run.out = TOut.retResult x →
       run.flags.signerInvoked = true ∧ ∃ t sg, env.executeRpc t sg = Except.ok x) ∧
    (run.flags.secretProduced = true → run.flags.secretCleared = true) := by
  subst hrun
  unfold transfer
  rcases hR : (if List.isSuffixOf ".sui".toList recipient0.toList then
      match env.resolveSuins recipient0 with
      | none => none
      | some r => if r = "" then none else some r
    else some recipient0) with _ | recipient <;> simp only [hR]
  · simp
  rcases hKg : env.keyringGet walletAlias with _ | privkey <;> simp only [hKg]
  · simp
  by_cases hPk : privkey = ""
  · rw [if_pos hPk]
    simp
  rw [if_neg hPk]
  obtain ⟨t1, t2, t3, t4, t5, t6, t7, t8⟩ :=
    transferTry_gate P env recipient (amountMist amountSui) auto privkey _ rfl
  exact ⟨t1, t2, t3, t4, t5, t6, t7, t8, fun _ => rfl⟩

-- ── Claim theorems ──────────────────────────────────────────────────────

/-- C1: in every run of `transfer`, `sign_and_execute` (and hence the
broadcast RPC) is invoked only when the preceding dry-run preview returned
`True`, which requires the simulation status field to be exactly the string
`"success"`; a dry-run preview that returns `False` makes the operation
return `None` with neither the signer nor the executor invoked. -/
theorem c1_simulation_gates_signing (P : CryptoPrims) (env : TransferEnv)
    (walletAlias recipient : String) (amountSui : PFloat) (autoConfirm : Bool) :
    ((transfer P env walletAlias recipient amountSui autoConfirm).flags.signerInvoked = true →
       ∃ j, (transfer P env walletAlias recipient amountSui autoConfirm).flags.simReport
              = some (j, Except.ok true) ∧ dryStatus j = some (Json.str "success")) ∧
    (∀ j, (transfer P env walletAlias recipient amountSui autoConfirm).flags.simReport
            = some (j, Except.ok false) →
       (transfer P env walletAlias recipient amountSui autoConfirm).out = TOut.retNone ∧
       (transfer P env walletAlias recipient amountSui autoConfirm).flags.signerInvoked = false ∧
       (transfer P env walletAlias recipient amountSui autoConfirm).flags.executorCalled
         = false) := by
  obtain ⟨g1, g2, g3, g4, g5, g6, g7, g8, g9⟩ :=
    transfer_gate P env walletAlias recipient amountSui autoConfirm _ rfl
  constructor
  · intro h
    obtain ⟨j, hj⟩ := g1 h
    obtain ⟨hd, s, r, hpd⟩ := g2 j (Except.ok true) hj
    obtain ⟨v, hv, hiff⟩ := printDryRun_ok j s r true hpd.symm
    exact ⟨j, hj, (hiff.mp rfl) ▸ hv⟩
  · exact g3

/-- Witness for C1: in a run whose dry-run response reports
`status = "failure"`, the operation returns `None` and neither the signer
nor the broadcast RPC is reached. -/
theorem c1_witness :
    (transfer constPrims envSimFail "w" "0xr" pf001 false).out = TOut.retNone ∧
    (transfer constPrims envSimFail "w" "0xr" pf001 false).flags.signerInvoked = false ∧
    (transfer constPrims envSimFail "w" "0xr" pf001 false).flags.executorCalled = false :=
  (c1_simulation_gates_signing constPrims envSimFail "w" "0xr" pf001 false).2
    simFailureJson (by rfl)

/-- C2: with the auto-confirm directive set, `transfer` never consults the
interactive prompt, the signer still runs only after a dry run whose
preview returned `True`, and a failing simulation result still makes the
operation return `None` without signing — auto-confirm skips only the
prompt, never the simulation gate. -/
theorem c2_auto_confirm_keeps_gate (P : CryptoPrims) (env : TransferEnv)
    (walletAlias recipient : String) (amountSui : PFloat) :
    (transfer P env walletAlias recipient amountSui true).flags.promptCalled = false ∧
    ((transfer P env walletAlias recipient amountSui true).flags.signerInvoked = true →
       (transfer P env walletAlias recipient amountSui true).flags.dryRunCalled = true ∧
       ∃ j, (transfer P env walletAlias recipient amountSui true).flags.simReport
              = some (j, Except.ok true)) ∧
    (∀ j, (transfer P env walletAlias recipient amountSui true).flags.simReport
            = some (j, Except.ok false) →
       (transfer P env walletAlias recipient amountSui true).out = TOut.retNone ∧
       (transfer P env walletAlias recipient amountSui true).flags.signerInvoked = false) := by
  obtain ⟨g1, g2, g3, g4, g5, g6, g7, g8, g9⟩ :=
    transfer_gate P env walletAlias recipient amountSui true _ rfl
  exact ⟨g5 rfl, fun h => ⟨g7 h, g1 h⟩, fun j hj => ⟨(g3 j hj).1, (g3 j hj).2.1⟩⟩

/-- Witness for C2: a failing simulation result with auto-confirm set —
the prompt is skipped, yet the signer is not invoked and the operation
returns `None`. -/
theorem c2_witness :
    (transfer constPrims envSimFail "w" "0xr" pf001 true).flags.promptCalled = false ∧
    (transfer constPrims envSimFail "w" "0xr" pf001 true).out = TOut.retNone ∧
    (transfer constPrims envSimFail "w" "0xr" pf001 true).flags.signerInvoked = false :=
  ⟨(c2_auto_confirm_keeps_gate constPrims envSimFail "w" "0xr" pf001).1,
   (c2_auto_confirm_keeps_gate constPrims envSimFail "w" "0xr" pf001).2.2
     simFailureJson (by rfl)⟩

/-- C3: on every exit path of `transfer` on which the secret material was
produced (success, any raised error, simulation failure, or user
cancellation), the `finally` block has rebound `privkey` and `seed` to
`None` — releasing the secret — before the operation returns. -/
theorem c3_secret_lifetime (P : CryptoPrims) (env : TransferEnv)
    (walletAlias recipient : String) (amountSui : PFloat) (autoConfirm : Bool) :
    (transfer P env walletAlias recipient amountSui autoConfirm).flags.secretProduced = true →
    (transfer P env walletAlias recipient amountSui autoConfirm).flags.secretCleared = true :=
  (transfer_gate P env walletAlias recipient amountSui autoConfirm _ rfl).2.2.2.2.2.2.2.2

/-- Witness for C3: a run that produced the secret material (here one that
fails with `NoFundsError`, an error exit) has the cleanup flag set. -/
theorem c3_witness :
    (transfer constPrims envNoCoins "w" "0xr" pf001 false).flags.secretProduced = true ∧
    (transfer constPrims envNoCoins "w" "0xr" pf001 false).flags.secretCleared = true :=
  ⟨by rfl, c3_secret_lifetime constPrims envNoCoins "w" "0xr" pf001 false (by rfl)⟩

/-- Anatomy of a successful `get_address_from_key` run: the bech32 decode
and the bit regrouping succeeded, byte 0 is the scheme, the seed is the
next 32 bytes, the public key comes from the signing primitive, and the
address is `"0x" ++ hex(blake2b256(scheme ‖ pk))`. -/
theorem getAddressFromKey_elim (P : CryptoPrims) (k : String)
    (seed : List Nat) (scheme : Nat) (pk : List Nat) (addr : String)
    (h : getAddressFromKey P k = .ok (seed, scheme, pk, addr)) :
    ∃ hrp d5 rest, bech32Decode k = some (hrp, d5) ∧
      convertbits58 d5 = some (scheme :: rest) ∧
      seed = rest.take 32 ∧ seed.length = 32 ∧
      pk = P.edPublicKey seed ∧
      addr = "0x" ++ hexOfBytes (P.blake2b256 (scheme :: pk)) := by
  unfold getAddressFromKey at h
  split at h
  · exact Except.noConfusion h
  next hrp d5 heqB =>
    split at h
    · exact Except.noConfusion h
    next d8 heqC =>
      split at h
      · exact Except.noConfusion h
      next sch rest =>
        simp only [ne_eq] at h
        split at h
        · exact Except.noConfusion h
        next hL =>
          simp only [Except.ok.injEq, Prod.mk.injEq] at h
          obtain ⟨h1, h2, h3, h4⟩ := h
          subst h2
          refine ⟨hrp, d5, rest, heqB, heqC, h1.symm, ?_, ?_, ?_⟩
          · rw [← h1]
            exact not_not.mp hL
          · rw [← h3, h1]
          · rw [← h4, ← h3, h1]

/-- C4: for every base64 transaction payload and every secret material,
`sign_and_execute` forms the intent message as the fixed 3-byte prefix
`[0,0,0]` followed by the transaction bytes, takes its 32-byte (256-bit)
blake2b digest, produces a 64-byte Ed25519 signature of the digest with the
seed, and assembles the envelope `scheme ‖ signature(64) ‖ publicKey(32)` —
exactly 97 raw bytes regardless of the message length — broadcasting its
base64 encoding. -/
theorem c4_signature_envelope (P : CryptoPrims) (env : TransferEnv) (s : String)
    (tx seed : List Nat) (scheme : Nat) (h : b64decode s = some tx) :
    signAndExecute P env (Json.str s) seed scheme
      = (true, env.executeRpc (Json.str s) (b64encode (sigEnvelopeBytes P seed scheme tx))) ∧
    sigEnvelopeBytes P seed scheme tx
      = scheme :: (P.edSign seed (P.blake2b256 (intentMessage tx)) ++ P.edPublicKey seed) ∧
    intentMessage tx = 0 :: 0 :: 0 :: tx ∧
    (P.blake2b256 (intentMessage tx)).length = 32 ∧
    (P.edSign seed (P.blake2b256 (intentMessage tx))).length = 64 ∧
    (P.edPublicKey seed).length = 32 ∧
    (sigEnvelopeBytes P seed scheme tx).length = 97 := by
  refine ⟨?_, rfl, rfl, P.blake2b256_len _, P.edSign_len _ _, P.edPublicKey_len _, ?_⟩
  · unfold signAndExecute
    simp only [h]
  · unfold sigEnvelopeBytes
    simp [P.edSign_len, P.edPublicKey_len]

/-- Witness for C4: concrete signing run over the 3-byte transaction
`[0,0,0]` (base64 `"AAAA"`). -/
theorem c4_witness :
    b64decode "AAAA" = some [0, 0, 0] ∧
    (sigEnvelopeBytes constPrims testSeed 0 [0, 0, 0]).length = 97 ∧
    signAndExecute constPrims baseEnv (Json.str "AAAA") testSeed 0
      = (true, Except.ok execOkJson) := by
  refine ⟨by rfl, (c4_signature_envelope constPrims baseEnv "AAAA" [0, 0, 0] testSeed 0
    (by rfl)).2.2.2.2.2.2, ?_⟩
  rw [(c4_signature_envelope constPrims baseEnv "AAAA" [0, 0, 0] testSeed 0 (by rfl)).1]
  rfl

/-- C5: address derivation is a deterministic pure function of the decoded
secret: a successful `get_address_from_key` returns the Ed25519 public key
of the 32-byte seed and the address
`"0x" ++ hex(blake2b256(scheme_byte ‖ publicKey))`, and any two successful
runs on the same input return identical material and identical addresses. -/
theorem c5_address_derivation (P : CryptoPrims) (k : String)
    (seed : List Nat) (scheme : Nat) (pk : List Nat) (addr : String)
    (h : getAddressFromKey P k = .ok (seed, scheme, pk, addr)) :
    pk = P.edPublicKey seed ∧
    addr = "0x" ++ hexOfBytes (P.blake2b256 (scheme :: pk)) ∧
    seed.length = 32 ∧
    (∀ seed2 scheme2 pk2 addr2,
       getAddressFromKey P k = .ok (seed2, scheme2, pk2, addr2) →
       seed2 = seed ∧ scheme2 = scheme ∧ pk2 = pk ∧ addr2 = addr) := by
  obtain ⟨hrp, d5, rest, hB, hC, hseed, hlen, hpk, haddr⟩ :=
    getAddressFromKey_elim P k seed scheme pk addr h
  refine ⟨hpk, haddr, hlen, ?_⟩
  intro s2 c2 p2 a2 h2
  rw [h] at h2
  simp only [Except.ok.injEq, Prod.mk.injEq] at h2
  exact ⟨h2.1.symm, h2.2.1.symm, h2.2.2.1.symm, h2.2.2.2.symm⟩

/-- Witness for C5: the concrete test key decodes and its address has the
stated shape. -/
theorem c5_witness :
    getAddressFromKey constPrims testKey
      = .ok (testSeed, 0, List.replicate 32 0,
             "0x" ++ hexOfBytes (constPrims.blake2b256 (0 :: List.replicate 32 0))) ∧
    (testSeed : List Nat).length = 32 := by
  refine ⟨by rfl, ?_⟩
  exact (c5_address_derivation constPrims testKey testSeed 0 (List.replicate 32 0)
    ("0x" ++ hexOfBytes (constPrims.blake2b256 (0 :: List.replicate 32 0))) (by rfl)).2.2.1

/-- C8: every encoded secret whose bech32 decode fails (malformed encoding
or wrong checksum), whose 5→8-bit regrouping fails (bad padding), or whose
decoded payload is shorter than 33 bytes makes `get_address_from_key` fail
with a decode error — it neither succeeds nor returns bogus material. -/
theorem c8_decode_error (P : CryptoPrims) (k : String)
    (h : bech32Decode k = none ∨
         (∃ hrp d5, bech32Decode k = some (hrp, d5) ∧ convertbits58 d5 = none) ∨
         (∃ hrp d5 d8, bech32Decode k = some (hrp, d5) ∧ convertbits58 d5 = some d8 ∧
            d8.length < 33)) :
    ∃ e, getAddressFromKey P k = .error e := by
  unfold getAddressFromKey
  rcases h with h | ⟨hrp, d5, h1, h2⟩ | ⟨hrp, d5, d8, h1, h2, h3⟩
  · simp only [h]
    exact ⟨_, rfl⟩
  · simp only [h1, h2]
    exact ⟨_, rfl⟩
  · simp only [h1, h2]
    cases d8 with
    | nil => exact ⟨_, rfl⟩
    | cons sch rest =>
      refine ⟨DecodeFail.badSeedLen, ?_⟩
      simp only [ne_eq]
      split
      · rfl
      next hcon =>
        refine absurd (not_not.mp hcon) ?_
        simp only [List.length_take, List.length_cons] at h3 ⊢
        omega

/-- Witness for C8: the empty string is a malformed encoding and the
decoder fails on it. -/
theorem c8_witness :
    bech32Decode "" = none ∧ ∃ e, getAddressFromKey constPrims "" = .error e :=
  ⟨by rfl, c8_decode_error constPrims "" (Or.inl (by rfl))⟩

/-- C9: a bech32 secret decoding to scheme 0 with a 32-byte seed and a raw
hex secret whose first 32 bytes are that same seed produce the same secret
material and the same derived address through `derive_sui_address`, which
also equals the address `get_address_from_key` computes. -/
theorem c9_hex_bech32_agree (P : CryptoPrims) (bech hexs : String)
    (seed pk : List Nat) (addr : String)
    (hb : getAddressFromKey P bech = .ok (seed, 0, pk, addr))
    (hpre : List.isPrefixOf "suiprivkey1".toList bech.toList = true)
    (hnpre : List.isPrefixOf "suiprivkey1".toList hexs.toList = false)
    (hhex : bytesFromHex ((stripZeroX hexs.toList).take 64) = some seed) :
    deriveSuiAddress P hexs = addr ∧ deriveSuiAddress P bech = addr := by
  obtain ⟨hrp, d5, rest, hB, hC, hseed, hlen, hpk, haddr⟩ :=
    getAddressFromKey_elim P bech seed 0 pk addr hb
  constructor
  · unfold deriveSuiAddress
    simp only [hnpre, Bool.false_eq_true, reduceIte, hhex]
    rw [if_neg (by rw [hlen]; exact fun hc => hc rfl)]
    rw [haddr, hpk]
  · unfold deriveSuiAddress
    simp only [hpre, reduceIte, hB, hC]
    rw [← hseed]
    rw [if_neg (by rw [hlen]; exact fun hc => hc rfl)]
    rw [haddr, hpk]

/-- Witness for C9: the concrete bech32 test key (scheme 0, seed
`testSeed`) and its raw-hex form derive the same address. -/
theorem c9_witness :
    deriveSuiAddress constPrims testKeyHex = deriveSuiAddress constPrims testKey := by
  have h := c9_hex_bech32_agree constPrims testKey testKeyHex testSeed
    (List.replicate 32 0)
    ("0x" ++ hexOfBytes (constPrims.blake2b256 (0 :: List.replicate 32 0)))
    (by rfl) (by rfl) (by rfl) (by rfl)
  rw [h.1, h.2]

/-- C6: the amount conversion `int(amount_sui * 1_000_000_000)` is IEEE-754
binary64 arithmetic, not exact integer arithmetic.  For the input 0.01 it
happens to produce exactly 10,000,000 (the first half of the claim), but it
is a floating-point approximation that drifts at other magnitudes: for the
decimal amount 0.000065 the code produces 64,999 mist where exact
arithmetic gives 65,000 (= 65 · 10^9 / 10^6). -/
theorem c6_amount_conversion_uses_floats :
    amountMist pf001 = 10000000 ∧
    amountMist (pyFloatOfDec 65 1000000) = 64999 ∧
    65 * 1000000000 / 1000000 = 65000 ∧
    amountMist (pyFloatOfDec 65 1000000) ≠ 65 * 1000000000 / 1000000 := by
  refine ⟨by rfl, by rfl, by rfl, ?_⟩
  intro hc
  rw [show amountMist (pyFloatOfDec 65 1000000) = 64999 from rfl] at hc
  simp at hc

/-- C7 counterexample: four different error kinds — key unavailable, no
spendable coin, simulation failure, and user cancellation — all surface to
the caller as the same `None` value, so the error kinds are not mutually
distinguishable as the claim states. -/
theorem c7_counterexample :
    (transfer constPrims envKeyMissing "w" "0xr" pf001 false).out = TOut.retNone ∧
    (transfer constPrims envNoCoins "w" "0xr" pf001 false).out = TOut.retNone ∧
    (transfer constPrims envSimFail "w" "0xr" pf001 false).out = TOut.retNone ∧
    (transfer constPrims envCancel "w" "0xr" pf001 false).out = TOut.retNone :=
  ⟨rfl, rfl, rfl, rfl⟩

/-- C7 (amended): no error is silently converted into an apparent success —
a result value is returned only when the signer actually ran and is exactly
the broadcast response (hence a chain-reported execution failure reaches
the caller inside the returned result, distinguishable from a success
result and from every pre-signing error); every run that never reached the
signer ends as `None` or as a propagated exception, never as a result. -/
theorem c7_errors_surface (P : CryptoPrims) (env : TransferEnv)
    (walletAlias recipient : String) (amountSui : PFloat) (auto : Bool) :
    (∀ x, (transfer P env walletAlias recipient amountSui auto).out = TOut.retResult x →
       (transfer P env walletAlias recipient amountSui auto).flags.signerInvoked = true ∧
       ∃ t sg, env.executeRpc t sg = Except.ok x) ∧
    ((transfer P env walletAlias recipient amountSui auto).flags.signerInvoked = false →
       (transfer P env walletAlias recipient amountSui auto).out = TOut.retNone ∨
       ∃ e, (transfer P env walletAlias recipient amountSui auto).out = TOut.raised e) := by
  obtain ⟨g1, g2, g3, g4, g5, g6, g7, g8, g9⟩ :=
    transfer_gate P env walletAlias recipient amountSui auto _ rfl
  refine ⟨g8, ?_⟩
  intro h
  rcases hout : (transfer P env walletAlias recipient amountSui auto).out with _ | x | e
  · exact Or.inl rfl
  · exact absurd ((g8 x hout).1) (by rw [h]; simp)
  · exact Or.inr ⟨e, rfl⟩

/-- Witness for the amended C7: a run in which the chain reports a failed
execution status returns that response as a result, and the signer
necessarily ran. -/
theorem c7_witness :
    (transfer constPrims envExecFail "w" "0xr" pf001 true).flags.signerInvoked = true :=
  ((c7_errors_surface constPrims envExecFail "w" "0xr" pf001 true).1
    execFailJson (by rfl)).1

/-- C10 counterexample: a dry-run response whose `effects.status` field is
a string — a malformed field — makes the preview check raise
`AttributeError` instead of returning `False`; the transfer operation then
propagates the exception (it does not return), though the signer is still
not invoked. -/
theorem c10_counterexample :
    printDryRun simMalformedJson "s" "r" = .error .attributeError ∧
    printDryRun simMalformedJson "s" "r" ≠ .ok false ∧
    (transfer constPrims envSimMalformed "w" "0xr" pf001 true).out
      = TOut.raised .attributeError ∧
    (transfer constPrims envSimMalformed "w" "0xr" pf001 true).flags.signerInvoked
      = false := by
  refine ⟨rfl, ?_, rfl, rfl⟩
  intro hc
  rw [show printDryRun simMalformedJson "s" "r" = .error .attributeError from rfl] at hc
  exact Except.noConfusion hc

/-- C10 (amended): whenever the preview check returns a boolean at all,
that boolean is exactly the test "the extracted `effects.status.status`
equals the string `success`" — an absent field defaults to `"unknown"`, so
absence and every other value yield `False`; when the chained field access
meets a non-object, the check raises instead of returning; and in both
non-`True` cases the transfer does not invoke the signer: it returns `None`
after a `False` preview and propagates the exception after a raising one. -/
theorem c10_unknown_status_blocks (P : CryptoPrims) (env : TransferEnv)
    (walletAlias recipient : String) (amountSui : PFloat) (auto : Bool) :
    (∀ j s r b, printDryRun j s r = .ok b →
       ∃ v, dryStatus j = some v ∧ (b = true ↔ v = Json.str "success")) ∧
    (∀ j s r, dryStatus j = none → ∃ e, printDryRun j s r = .error e) ∧
    (∀ j, (transfer P env walletAlias recipient amountSui auto).flags.simReport
            = some (j, Except.ok false) →
       (transfer P env walletAlias recipient amountSui auto).out = TOut.retNone ∧
       (transfer P env walletAlias recipient amountSui auto).flags.signerInvoked = false) ∧
    (∀ j e, (transfer P env walletAlias recipient amountSui auto).flags.simReport
            = some (j, Except.error e) →
       (transfer P env walletAlias recipient amountSui auto).out = TOut.raised e ∧
       (transfer P env walletAlias recipient amountSui auto).flags.signerInvoked
         = false) := by
  obtain ⟨g1, g2, g3, g4, g5, g6, g7, g8, g9⟩ :=
    transfer_gate P env walletAlias recipient amountSui auto _ rfl
  exact ⟨fun j s r b h => printDryRun_ok j s r b h,
         fun j s r h => printDryRun_raises j s r h,
         fun j hj => ⟨(g3 j hj).1, (g3 j hj).2.1⟩,
         fun j e hj => ⟨(g4 j e hj).1, (g4 j e hj).2.1⟩⟩

/-- Witness for the amended C10: the malformed dry-run response makes the
concrete transfer run raise `AttributeError` without invoking the signer. -/
theorem c10_witness :
    (transfer constPrims envSimMalformed "w" "0xr" pf001 true).out
        = TOut.raised PyErr.attributeError ∧
    (transfer constPrims envSimMalformed "w" "0xr" pf001 true).flags.signerInvoked
        = false :=
  (c10_unknown_status_blocks constPrims envSimMalformed "w" "0xr" pf001 true).2.2.2
    simMalformedJson PyErr.attributeError (by rfl)

end MiaoWallet
